import Mathlib

/-!
# Verification of minimidio (single-file MIDI I/O library)

Shallow embedding of the message model, the CoreMIDI byte parser
(`mm__cm_read_proc`), the serializer (`mm_out_send`), the MTC quarter-frame
accumulator (`mm_mtc_push`, `mm_mtc_to_seconds`), the result-code printer
(`mm_result_string`), the ALSA port enumerator (`mm__alsa_enum`), and the
device open/start/send guard logic, all translated from `minimidio.h`.
Machine integers are modelled as `Nat` (the C fields are `uint8_t`/`uint16_t`
and all values stay small; explicit masks appear where the source has them).
OS primitives (CoreMIDI/ALSA calls) are modelled as succeeding, or as boolean
parameters where their failure changes the control flow we reason about.
-/

/- ── Message type codes, from `enum mm_message_type` ── -/

def MM_NOTE_OFF          : Nat := 0x08
def MM_NOTE_ON           : Nat := 0x09
def MM_POLY_PRESSURE     : Nat := 0x0A
def MM_CONTROL_CHANGE    : Nat := 0x0B
def MM_PROGRAM_CHANGE    : Nat := 0x0C
def MM_CHANNEL_PRESSURE  : Nat := 0x0D
def MM_PITCH_BEND        : Nat := 0x0E
def MM_SYSEX             : Nat := 0x10
def MM_MTC_QUARTER_FRAME : Nat := 0x11
def MM_SONG_POSITION     : Nat := 0x12
def MM_SONG_SELECT       : Nat := 0x13
def MM_TUNE_REQUEST      : Nat := 0x14
def MM_CLOCK             : Nat := 0x18
def MM_START             : Nat := 0x1A
def MM_CONTINUE          : Nat := 0x1B
def MM_STOP              : Nat := 0x1C
def MM_ACTIVE_SENSE      : Nat := 0x1E
def MM_RESET             : Nat := 0x1F

def MM_SYSEX_BUF_SIZE : Nat := 4096
def MM_MAX_PORTS      : Nat := 64

/-- `struct mm_message` (timestamp omitted: no claim concerns it).
`data0`/`data1` are the two cells of the C `data[2]` array. -/
structure mm_message where
  type          : Nat
  channel       : Nat := 0
  data0         : Nat := 0
  data1         : Nat := 0
  song_position : Nat := 0
  sysex         : List Nat := []
deriving DecidableEq, Repr

/-- `mm_make_message`: pack raw status + 2 data bytes into an `mm_message`. -/
def mm_make_message (status d1 d2 : Nat) : mm_message :=
  { type := (status >>> 4) &&& 0x0F, channel := status &&& 0x0F,
    data0 := d1, data1 := d2 }

/-- The SysEx forward scan of `mm__cm_read_proc`
(`while (j < len && data[j] != 0xF7) j++; if (j < len) j++;`):
returns the scanned bytes (including the terminating 0xF7 when present)
and the remainder of the packet. -/
def mm__scan_sysex : List Nat → List Nat × List Nat
  | [] => ([], [])
  | b :: t =>
    if b = 0xF7 then ([0xF7], t)
    else
      let p := mm__scan_sysex t
      (b :: p.1, p.2)

theorem mm__scan_sysex_snd_length_le (l : List Nat) :
    (mm__scan_sysex l).2.length ≤ l.length := by
  induction l with
  | nil => simp [mm__scan_sysex]
  | cons b t ih =>
    by_cases hb : b = 0xF7
    · simp [mm__scan_sysex, hb]
    · simp only [mm__scan_sysex, if_neg hb, List.length_cons]
      omega

/- Bridging lemmas: the C bit operations in terms of `%`, `/`, `*`
(`Nat.and_pow_two_sub_one_eq_mod` instantiated at the masks the source uses),
so that `simp`/`omega` can compute with them. -/

theorem mm_and_one (x : Nat) : x &&& 1 = x % 2 := Nat.and_pow_two_sub_one_eq_mod x 1
theorem mm_and_three (x : Nat) : x &&& 3 = x % 4 := Nat.and_pow_two_sub_one_eq_mod x 2
theorem mm_and_seven (x : Nat) : x &&& 7 = x % 8 := Nat.and_pow_two_sub_one_eq_mod x 3
theorem mm_and_fifteen (x : Nat) : x &&& 15 = x % 16 := Nat.and_pow_two_sub_one_eq_mod x 4
theorem mm_and_127 (x : Nat) : x &&& 127 = x % 128 := Nat.and_pow_two_sub_one_eq_mod x 7
theorem mm_and_255 (x : Nat) : x &&& 255 = x % 256 := Nat.and_pow_two_sub_one_eq_mod x 8

/-- One iteration of the `while (j < pkt->length)` loop of
`mm__cm_read_proc`, given the status-position byte `s` and the bytes after
it: the message emitted by this iteration (if any) and the bytes left for
the next iteration.  Branches appear in source order: real-time (≥ 0xF8),
SysEx (0xF0), system common (0xF1–0xF6), channel messages (≥ 0x80),
and data-byte skip. -/
def parse_step (s : Nat) (t : List Nat) : Option mm_message × List Nat :=
  if 0xF8 ≤ s then
    -- single-byte real-time; 0xF9/0xFD (and others) skipped
    if s = 0xF8 then (some { type := MM_CLOCK }, t)
    else if s = 0xFA then (some { type := MM_START }, t)
    else if s = 0xFB then (some { type := MM_CONTINUE }, t)
    else if s = 0xFC then (some { type := MM_STOP }, t)
    else if s = 0xFE then (some { type := MM_ACTIVE_SENSE }, t)
    else if s = 0xFF then (some { type := MM_RESET }, t)
    else (none, t)
  else if s = 0xF0 then
    let p := mm__scan_sysex t
    (some { type := MM_SYSEX, sysex := s :: p.1 }, p.2)
  else if 0xF1 ≤ s ∧ s ≤ 0xF6 then
    if s = 0xF1 then
      match t with
      | d :: r => (some { type := MM_MTC_QUARTER_FRAME, data0 := d }, r)
      | [] => (some { type := MM_MTC_QUARTER_FRAME }, [])
    else if s = 0xF2 then
      match t with
      | lsb :: msb :: r =>
        (some { type := MM_SONG_POSITION, data0 := lsb, data1 := msb,
                song_position := lsb ||| (msb <<< 7) }, r)
      | _ => (some { type := MM_SONG_POSITION }, t)
    else if s = 0xF3 then
      match t with
      | d :: r => (some { type := MM_SONG_SELECT, data0 := d }, r)
      | [] => (some { type := MM_SONG_SELECT }, [])
    else if s = 0xF6 then (some { type := MM_TUNE_REQUEST }, t)
    else (none, t)  -- 0xF4, 0xF5 undefined: status byte consumed, no message
  else if 0x80 ≤ s then
    let ty := (s >>> 4) &&& 0x0F
    let ch := s &&& 0x0F
    if ty = MM_NOTE_OFF ∨ ty = MM_NOTE_ON ∨ ty = MM_POLY_PRESSURE ∨
       ty = MM_CONTROL_CHANGE ∨ ty = MM_PITCH_BEND then
      match t with
      | d0 :: d1 :: r => (some { type := ty, channel := ch, data0 := d0, data1 := d1 }, r)
      | [d0] => (some { type := ty, channel := ch, data0 := d0 }, [])
      | [] => (some { type := ty, channel := ch }, [])
    else
      match t with
      | d0 :: r => (some { type := ty, channel := ch, data0 := d0 }, r)
      | [] => (some { type := ty, channel := ch }, [])
  else (none, t)  -- byte ≤ 0x7F in status position: skipped

theorem parse_step_snd_length_le (s : Nat) (t : List Nat) :
    (parse_step s t).2.length ≤ t.length := by
  have hs := mm__scan_sysex_snd_length_le t
  unfold parse_step
  split_ifs <;>
    first
      | exact hs
      | (rcases t with _ | ⟨d0, _ | ⟨d1, r⟩⟩ <;> (try simp) <;> (try split_ifs) <;>
          (try simp) <;> omega)

/-- The per-packet byte parser of `mm__cm_read_proc`: iterate `parse_step`
over the packet bytes, collecting the emitted messages in order. -/
def parse : List Nat → List mm_message
  | [] => []
  | s :: t =>
    let p := parse_step s t
    (p.1.toList) ++ parse p.2
termination_by l => l.length
decreasing_by
  simp_wf
  exact Nat.lt_succ_of_le (parse_step_snd_length_le _ _)

/-- The byte layout of `mm_out_send` (CoreMIDI backend, the reference
serializer): `none` models the `default: return MM_INVALID_ARG` case. -/
def mm_out_send_bytes (m : mm_message) : Option (List Nat) :=
  if m.type = MM_NOTE_OFF ∨ m.type = MM_NOTE_ON ∨ m.type = MM_POLY_PRESSURE ∨
     m.type = MM_CONTROL_CHANGE ∨ m.type = MM_PITCH_BEND then
    some [((m.type &&& 0xFF) <<< 4 ||| (m.channel &&& 0xF)) &&& 0xFF, m.data0, m.data1]
  else if m.type = MM_PROGRAM_CHANGE ∨ m.type = MM_CHANNEL_PRESSURE then
    some [((m.type &&& 0xFF) <<< 4 ||| (m.channel &&& 0xF)) &&& 0xFF, m.data0]
  else if m.type = MM_SONG_POSITION then
    some [0xF2, m.song_position &&& 0x7F, (m.song_position >>> 7) &&& 0x7F]
  else if m.type = MM_MTC_QUARTER_FRAME then some [0xF1, m.data0]
  else if m.type = MM_SONG_SELECT then some [0xF3, m.data0]
  else if m.type = MM_TUNE_REQUEST then some [0xF6]
  else if m.type = MM_CLOCK then some [0xF8]
  else if m.type = MM_START then some [0xFA]
  else if m.type = MM_CONTINUE then some [0xFB]
  else if m.type = MM_STOP then some [0xFC]
  else if m.type = MM_ACTIVE_SENSE then some [0xFE]
  else if m.type = MM_RESET then some [0xFF]
  else none

/- ── Generic bit-recomposition lemmas used by the roundtrip proofs ── -/

theorem mm_or_mul_pow (k a b : Nat) (h : a < 2 ^ k) : a ||| (b * 2 ^ k) = b * 2 ^ k + a := by
  induction k generalizing a b with
  | zero =>
    have ha : a = 0 := by omega
    subst ha; simp
  | succ k ih =>
    have hc : b * 2 ^ (k + 1) = 2 * (b * 2 ^ k) := by ring
    have hmod : (a ||| b * 2 ^ (k + 1)) % 2 = a % 2 := by
      have hceven : (b * 2 ^ (k + 1)) % 2 = 0 := by omega
      rcases Nat.mod_two_eq_zero_or_one a with h0 | h1
      · have : ¬ (a ||| b * 2 ^ (k + 1)) % 2 = 1 := by
          rw [Nat.or_mod_two_eq_one]; omega
        omega
      · have : (a ||| b * 2 ^ (k + 1)) % 2 = 1 := by
          rw [Nat.or_mod_two_eq_one]; omega
        omega
    have hdiv : (a ||| b * 2 ^ (k + 1)) / 2 = a / 2 ||| b * 2 ^ k := by
      rw [Nat.or_div_two, hc, Nat.mul_div_cancel_left _ (by norm_num : (0:Nat) < 2)]
    have ha2 : a / 2 < 2 ^ k := by
      rw [pow_succ] at h; omega
    have hih := ih (a / 2) b ha2
    have hx := Nat.div_add_mod (a ||| b * 2 ^ (k + 1)) 2
    rw [hdiv, hih, hmod] at hx
    omega

/-- Recomposing a 14-bit Song Position from the LSB/MSB bytes that
`mm_out_send` splits it into recovers the original value. -/
theorem mm_sp_recompose (sp : Nat) (h : sp < 16384) :
    (sp &&& 127) ||| (((sp >>> 7) &&& 127) <<< 7) = sp := by
  rw [Nat.and_pow_two_sub_one_eq_mod sp 7, Nat.shiftRight_eq_div_pow,
      Nat.and_pow_two_sub_one_eq_mod _ 7, Nat.shiftLeft_eq,
      mm_or_mul_pow 7 _ _ (by omega)]
  have h1 : sp / 2 ^ 7 % 2 ^ 7 = sp / 128 := by omega
  norm_num at h1 ⊢
  omega

/- ── Valid payloads, and the message the parser recovers ── -/

/-- Valid payloads as the spec states them: channel 0–15, 7-bit data bytes,
14-bit song position. -/
def validMsg (m : mm_message) : Prop :=
  m.channel < 16 ∧ m.data0 ≤ 0x7F ∧ m.data1 ≤ 0x7F ∧ m.song_position < 16384

/-- The message `mm__cm_read_proc` delivers when fed the bytes that
`mm_out_send` produces for `m` (fields the wire does not carry are the
zero values `memset` leaves in place). -/
def reparsed (m : mm_message) : mm_message :=
  if m.type = MM_NOTE_OFF ∨ m.type = MM_NOTE_ON ∨ m.type = MM_POLY_PRESSURE ∨
     m.type = MM_CONTROL_CHANGE ∨ m.type = MM_PITCH_BEND then
    { type := m.type, channel := m.channel, data0 := m.data0, data1 := m.data1 }
  else if m.type = MM_PROGRAM_CHANGE ∨ m.type = MM_CHANNEL_PRESSURE then
    { type := m.type, channel := m.channel, data0 := m.data0 }
  else if m.type = MM_SONG_POSITION then
    { type := MM_SONG_POSITION, data0 := m.song_position &&& 0x7F,
      data1 := (m.song_position >>> 7) &&& 0x7F, song_position := m.song_position }
  else if m.type = MM_MTC_QUARTER_FRAME then
    { type := MM_MTC_QUARTER_FRAME, data0 := m.data0 }
  else if m.type = MM_SONG_SELECT then
    { type := MM_SONG_SELECT, data0 := m.data0 }
  else
    { type := m.type }

theorem parse_cons (s : Nat) (t : List Nat) :
    parse (s :: t) = (parse_step s t).1.toList ++ parse (parse_step s t).2 := by
  rw [parse]

theorem parse_step_channel (L ch d0 d1 : Nat) (r : List Nat)
    (h8 : 8 ≤ L) (h14 : L ≤ 14) (hch : ch < 16) :
    parse_step (16 * L + ch) (d0 :: d1 :: r) =
      if L = MM_NOTE_OFF ∨ L = MM_NOTE_ON ∨ L = MM_POLY_PRESSURE ∨
         L = MM_CONTROL_CHANGE ∨ L = MM_PITCH_BEND then
        (some { type := L, channel := ch, data0 := d0, data1 := d1 }, r)
      else
        (some { type := L, channel := ch, data0 := d0 }, d1 :: r) := by
  have e5 : (16 * L + ch) >>> 4 &&& 15 = L := by
    rw [mm_and_fifteen, Nat.shiftRight_eq_div_pow]; norm_num; omega
  have e6 : (16 * L + ch) &&& 15 = ch := by rw [mm_and_fifteen]; omega
  simp only [parse_step]
  rw [if_neg (by omega : ¬ 0xF8 ≤ 16 * L + ch),
      if_neg (by omega : ¬ 16 * L + ch = 0xF0),
      if_neg (by omega : ¬ (0xF1 ≤ 16 * L + ch ∧ 16 * L + ch ≤ 0xF6)),
      if_pos (by omega : 0x80 ≤ 16 * L + ch)]
  simp only [e5, e6]

theorem parse_step_channel_one (L ch d0 : Nat) (r : List Nat)
    (h8 : 8 ≤ L) (h14 : L ≤ 14) (hch : ch < 16)
    (hL : ¬(L = MM_NOTE_OFF ∨ L = MM_NOTE_ON ∨ L = MM_POLY_PRESSURE ∨
            L = MM_CONTROL_CHANGE ∨ L = MM_PITCH_BEND)) :
    parse_step (16 * L + ch) (d0 :: r) =
      (some { type := L, channel := ch, data0 := d0 }, r) := by
  have e5 : (16 * L + ch) >>> 4 &&& 15 = L := by
    rw [mm_and_fifteen, Nat.shiftRight_eq_div_pow]; norm_num; omega
  have e6 : (16 * L + ch) &&& 15 = ch := by rw [mm_and_fifteen]; omega
  simp only [parse_step]
  rw [if_neg (by omega : ¬ 0xF8 ≤ 16 * L + ch),
      if_neg (by omega : ¬ 16 * L + ch = 0xF0),
      if_neg (by omega : ¬ (0xF1 ≤ 16 * L + ch ∧ 16 * L + ch ≤ 0xF6)),
      if_pos (by omega : 0x80 ≤ 16 * L + ch)]
  simp only [e5, e6]
  rw [if_neg hL]

theorem raw0_eq (L ch : Nat) (h8 : 8 ≤ L) (h14 : L ≤ 14) (hch : ch < 16) :
    ((L &&& 255) <<< 4 ||| (ch &&& 15)) &&& 255 = 16 * L + ch := by
  have hL : L &&& 255 = L := by rw [mm_and_255]; omega
  have hc : ch &&& 15 = ch := by rw [mm_and_fifteen]; omega
  rw [hL, hc, Nat.shiftLeft_eq, Nat.lor_comm, mm_or_mul_pow 4 ch L (by omega), mm_and_255]
  norm_num
  omega

theorem parse_step_f1 (d : Nat) (r : List Nat) :
    parse_step 0xF1 (d :: r) = (some { type := MM_MTC_QUARTER_FRAME, data0 := d }, r) := by
  simp [parse_step]

theorem parse_step_f2 (lsb msb : Nat) (r : List Nat) :
    parse_step 0xF2 (lsb :: msb :: r) =
      (some { type := MM_SONG_POSITION, data0 := lsb, data1 := msb,
              song_position := lsb ||| (msb <<< 7) }, r) := by
  simp [parse_step]

theorem parse_step_f3 (d : Nat) (r : List Nat) :
    parse_step 0xF3 (d :: r) = (some { type := MM_SONG_SELECT, data0 := d }, r) := by
  simp [parse_step]

theorem parse_step_f6 (t : List Nat) :
    parse_step 0xF6 t = (some { type := MM_TUNE_REQUEST }, t) := by
  simp [parse_step]

/-- The parsed type of each defined real-time status byte. -/
def mm_rt_type (s : Nat) : Nat :=
  if s = 0xF8 then MM_CLOCK
  else if s = 0xFA then MM_START
  else if s = 0xFB then MM_CONTINUE
  else if s = 0xFC then MM_STOP
  else if s = 0xFE then MM_ACTIVE_SENSE
  else MM_RESET

/-- The defined single-byte real-time statuses (0xF9 and 0xFD are undefined). -/
def mm_rt_defined (s : Nat) : Prop :=
  s = 0xF8 ∨ s = 0xFA ∨ s = 0xFB ∨ s = 0xFC ∨ s = 0xFE ∨ s = 0xFF

theorem parse_step_realtime (s : Nat) (t : List Nat) (h : mm_rt_defined s) :
    parse_step s t = (some { type := mm_rt_type s }, t) := by
  rcases h with rfl | rfl | rfl | rfl | rfl | rfl <;> simp [parse_step, mm_rt_type]

/-- The undefined status bytes the spec says are skipped silently. -/
def mm_undef_status (s : Nat) : Prop :=
  s = 0xF4 ∨ s = 0xF5 ∨ s = 0xF9 ∨ s = 0xFD

theorem parse_step_undef (s : Nat) (t : List Nat) (h : mm_undef_status s) :
    parse_step s t = (none, t) := by
  rcases h with rfl | rfl | rfl | rfl <;> simp [parse_step]

/-- Compositionality of serialize-then-parse: the bytes `mm_out_send`
produces for a valid message, prefixed to any remaining input, parse to
exactly the reparsed message followed by the parse of the rest. -/
theorem parse_encode_append (m : mm_message) (bs rest : List Nat)
    (hv : validMsg m) (hb : mm_out_send_bytes m = some bs) :
    parse (bs ++ rest) = reparsed m :: parse rest := by
  obtain ⟨ty, ch, d0, d1, sp, sx⟩ := m
  obtain ⟨hch, hd0, hd1, hsp⟩ := hv
  simp only at hch hd0 hd1 hsp
  rw [mm_out_send_bytes] at hb
  by_cases h1 : ty = MM_NOTE_OFF ∨ ty = MM_NOTE_ON ∨ ty = MM_POLY_PRESSURE ∨
      ty = MM_CONTROL_CHANGE ∨ ty = MM_PITCH_BEND
  · rw [if_pos h1, Option.some_inj] at hb; subst hb
    have hL : 8 ≤ ty ∧ ty ≤ 14 := by
      rcases h1 with rfl | rfl | rfl | rfl | rfl <;>
        simp [MM_NOTE_OFF, MM_NOTE_ON, MM_POLY_PRESSURE, MM_CONTROL_CHANGE, MM_PITCH_BEND]
    simp only [List.cons_append, List.nil_append]
    rw [raw0_eq ty ch hL.1 hL.2 hch, parse_cons,
        parse_step_channel ty ch d0 d1 rest hL.1 hL.2 hch, if_pos h1]
    simp only [reparsed]
    rw [if_pos h1]
    rfl
  · rw [if_neg h1] at hb
    by_cases h2 : ty = MM_PROGRAM_CHANGE ∨ ty = MM_CHANNEL_PRESSURE
    · rw [if_pos h2, Option.some_inj] at hb; subst hb
      have hL : 8 ≤ ty ∧ ty ≤ 14 := by
        rcases h2 with rfl | rfl <;> simp [MM_PROGRAM_CHANGE, MM_CHANNEL_PRESSURE]
      simp only [List.cons_append, List.nil_append]
      rw [raw0_eq ty ch hL.1 hL.2 hch, parse_cons,
          parse_step_channel_one ty ch d0 rest hL.1 hL.2 hch h1]
      simp only [reparsed]
      rw [if_neg h1, if_pos h2]
      rfl
    · rw [if_neg h2] at hb
      by_cases h3 : ty = MM_SONG_POSITION
      · rw [if_pos h3, Option.some_inj] at hb; subst hb; subst h3
        simp only [List.cons_append, List.nil_append]
        rw [parse_cons, parse_step_f2, mm_sp_recompose sp hsp]
        rfl
      · rw [if_neg h3] at hb
        by_cases h4 : ty = MM_MTC_QUARTER_FRAME
        · rw [if_pos h4, Option.some_inj] at hb; subst hb; subst h4
          simp only [List.cons_append, List.nil_append]
          rw [parse_cons, parse_step_f1]
          rfl
        · rw [if_neg h4] at hb
          by_cases h5 : ty = MM_SONG_SELECT
          · rw [if_pos h5, Option.some_inj] at hb; subst hb; subst h5
            simp only [List.cons_append, List.nil_append]
            rw [parse_cons, parse_step_f3]
            rfl
          · rw [if_neg h5] at hb
            by_cases h6 : ty = MM_TUNE_REQUEST
            · rw [if_pos h6, Option.some_inj] at hb; subst hb; subst h6
              simp only [List.cons_append, List.nil_append]
              rw [parse_cons, parse_step_f6]
              rfl
            · rw [if_neg h6] at hb
              by_cases h7 : ty = MM_CLOCK
              · rw [if_pos h7, Option.some_inj] at hb; subst hb; subst h7
                simp only [List.cons_append, List.nil_append]
                rw [parse_cons, parse_step_realtime _ _ (Or.inl rfl)]
                rfl
              · rw [if_neg h7] at hb
                by_cases h8 : ty = MM_START
                · rw [if_pos h8, Option.some_inj] at hb; subst hb; subst h8
                  simp only [List.cons_append, List.nil_append]
                  rw [parse_cons, parse_step_realtime _ _ (Or.inr (Or.inl rfl))]
                  rfl
                · rw [if_neg h8] at hb
                  by_cases h9 : ty = MM_CONTINUE
                  · rw [if_pos h9, Option.some_inj] at hb; subst hb; subst h9
                    simp only [List.cons_append, List.nil_append]
                    rw [parse_cons, parse_step_realtime _ _ (Or.inr (Or.inr (Or.inl rfl)))]
                    rfl
                  · rw [if_neg h9] at hb
                    by_cases h10 : ty = MM_STOP
                    · rw [if_pos h10, Option.some_inj] at hb; subst hb; subst h10
                      simp only [List.cons_append, List.nil_append]
                      rw [parse_cons,
                          parse_step_realtime _ _ (Or.inr (Or.inr (Or.inr (Or.inl rfl))))]
                      rfl
                    · rw [if_neg h10] at hb
                      by_cases h11 : ty = MM_ACTIVE_SENSE
                      · rw [if_pos h11, Option.some_inj] at hb; subst hb; subst h11
                        simp only [List.cons_append, List.nil_append]
                        rw [parse_cons,
                            parse_step_realtime _ _
                              (Or.inr (Or.inr (Or.inr (Or.inr (Or.inl rfl)))))]
                        rfl
                      · rw [if_neg h11] at hb
                        by_cases h12 : ty = MM_RESET
                        · rw [if_pos h12, Option.some_inj] at hb; subst hb; subst h12
                          simp only [List.cons_append, List.nil_append]
                          rw [parse_cons,
                              parse_step_realtime _ _
                                (Or.inr (Or.inr (Or.inr (Or.inr (Or.inr rfl)))))]
                          rfl
                        · rw [if_neg h12] at hb
                          exact absurd hb (by simp)

theorem parse_nil : parse [] = [] := by rw [parse]

/-- The kind-relevant payload of a message: channel and data bytes for
channel messages, the 14-bit beat count for Song Position, the single data
byte for MTC quarter-frame and Song Select, nothing for the data-less
kinds. -/
def payloadOf (m : mm_message) : List Nat :=
  if m.type = MM_NOTE_OFF ∨ m.type = MM_NOTE_ON ∨ m.type = MM_POLY_PRESSURE ∨
     m.type = MM_CONTROL_CHANGE ∨ m.type = MM_PITCH_BEND then
    [m.channel, m.data0, m.data1]
  else if m.type = MM_PROGRAM_CHANGE ∨ m.type = MM_CHANNEL_PRESSURE then
    [m.channel, m.data0]
  else if m.type = MM_SONG_POSITION then [m.song_position]
  else if m.type = MM_MTC_QUARTER_FRAME ∨ m.type = MM_SONG_SELECT then [m.data0]
  else []

theorem reparsed_type (m : mm_message) : (reparsed m).type = m.type := by
  unfold reparsed
  split_ifs with h1 h2 h3 h4 h5 <;> simp_all

theorem reparsed_payload (m : mm_message) : payloadOf (reparsed m) = payloadOf m := by
  unfold reparsed
  split_ifs with h1 h2 h3 h4 h5 <;>
    · unfold payloadOf
      simp_all [MM_NOTE_OFF, MM_NOTE_ON, MM_POLY_PRESSURE, MM_CONTROL_CHANGE,
                MM_PITCH_BEND, MM_PROGRAM_CHANGE, MM_CHANNEL_PRESSURE,
                MM_SONG_POSITION, MM_MTC_QUARTER_FRAME, MM_SONG_SELECT]

/-- Concatenated serialization of a message list (`none` if any message is
one `mm_out_send` rejects). -/
def encodeMsgs : List mm_message → Option (List Nat)
  | [] => some []
  | m :: ms =>
    match mm_out_send_bytes m, encodeMsgs ms with
    | some bs, some rest => some (bs ++ rest)
    | _, _ => none

/-- Parsing a concatenation of serialized valid messages, followed by any
further bytes, yields the reparsed messages followed by the parse of the
further bytes. -/
theorem parse_encodeAll_append (ms : List mm_message) (S rest : List Nat)
    (hv : ∀ m ∈ ms, validMsg m) (hS : encodeMsgs ms = some S) :
    parse (S ++ rest) = ms.map reparsed ++ parse rest := by
  induction ms generalizing S with
  | nil =>
    unfold encodeMsgs at hS
    rw [Option.some_inj] at hS
    subst hS
    simp
  | cons m ms ih =>
    unfold encodeMsgs at hS
    cases hbs : mm_out_send_bytes m with
    | none => rw [hbs] at hS; simp at hS
    | some bs =>
      cases hrest : encodeMsgs ms with
      | none => rw [hbs, hrest] at hS; simp at hS
      | some S2 =>
        rw [hbs, hrest, Option.some_inj] at hS
        subst hS
        rw [List.append_assoc,
            parse_encode_append m bs (S2 ++ rest) (hv m (by simp)) hbs,
            ih S2 (fun x hx => hv x (List.mem_cons_of_mem m hx)) hrest]
        simp

theorem parse_encodeAll (ms : List mm_message) (S : List Nat)
    (hv : ∀ m ∈ ms, validMsg m) (hS : encodeMsgs ms = some S) :
    parse S = ms.map reparsed := by
  have h := parse_encodeAll_append ms S [] hv hS
  simpa [parse_nil] using h

/-- C1: serialize-then-parse roundtrip.  For every message with valid
payloads that `mm_out_send` serializes, the parser `mm__cm_read_proc`
yields exactly one message, equal to the original in kind, channel and
payload (in particular Song Position values 0..16383 roundtrip). -/
theorem c1_serialize_parse_roundtrip (m : mm_message) (bs : List Nat)
    (hv : validMsg m) (hb : mm_out_send_bytes m = some bs) :
    parse bs = [reparsed m] ∧ (reparsed m).type = m.type ∧
    payloadOf (reparsed m) = payloadOf m := by
  refine ⟨?_, reparsed_type m, reparsed_payload m⟩
  have h := parse_encode_append m bs [] hv hb
  simpa [parse_nil] using h

/-- Witness for C1 at SongPosition(300): serializes to 0xF2 0x2C 0x02 and
parses back with song_position 300. -/
theorem c1_serialize_parse_roundtrip_witness :
    parse [0xF2, 0x2C, 0x02] = [reparsed { type := MM_SONG_POSITION, song_position := 300 }] ∧
    (reparsed { type := MM_SONG_POSITION, song_position := 300 }).type =
      ({ type := MM_SONG_POSITION, song_position := 300 } : mm_message).type ∧
    payloadOf (reparsed { type := MM_SONG_POSITION, song_position := 300 }) =
      payloadOf { type := MM_SONG_POSITION, song_position := 300 } :=
  c1_serialize_parse_roundtrip { type := MM_SONG_POSITION, song_position := 300 }
    [0xF2, 0x2C, 0x02] (by refine ⟨?_, ?_, ?_, ?_⟩ <;> norm_num) (by decide)

/-- C2 (amended): inserting a defined real-time byte at a *message
boundary* of a stream of serialized valid messages yields the same
messages plus exactly one real-time event at that boundary, in order. -/
theorem c2_realtime_boundary_insertion (ms1 ms2 : List mm_message) (S1 S2 : List Nat) (R : Nat)
    (hv1 : ∀ m ∈ ms1, validMsg m) (hv2 : ∀ m ∈ ms2, validMsg m)
    (h1 : encodeMsgs ms1 = some S1) (h2 : encodeMsgs ms2 = some S2)
    (hR : mm_rt_defined R) :
    parse (S1 ++ R :: S2) =
      ms1.map reparsed ++ { type := mm_rt_type R } :: ms2.map reparsed ∧
    parse (S1 ++ S2) = ms1.map reparsed ++ ms2.map reparsed := by
  have hS2 : parse S2 = ms2.map reparsed := parse_encodeAll ms2 S2 hv2 h2
  constructor
  · rw [parse_encodeAll_append ms1 S1 (R :: S2) hv1 h1, parse_cons,
        parse_step_realtime R S2 hR, hS2]
    rfl
  · rw [parse_encodeAll_append ms1 S1 S2 hv1 h1, hS2]

/-- Witness for C2 (amended): a Clock byte inserted between a serialized
NoteOn and a serialized Start message. -/
theorem c2_realtime_boundary_insertion_witness :
    parse ([0x90, 0x3C, 0x64] ++ 0xF8 :: [0xFA]) =
      [{ type := MM_NOTE_ON, data0 := 0x3C, data1 := 0x64 }].map reparsed ++
        { type := mm_rt_type 0xF8 } :: [{ type := MM_START }].map reparsed ∧
    parse ([0x90, 0x3C, 0x64] ++ [0xFA]) =
      [{ type := MM_NOTE_ON, data0 := 0x3C, data1 := 0x64 }].map reparsed ++
        [{ type := MM_START }].map reparsed :=
  c2_realtime_boundary_insertion
    [{ type := MM_NOTE_ON, data0 := 0x3C, data1 := 0x64 }] [{ type := MM_START }]
    [0x90, 0x3C, 0x64] [0xFA] 0xF8
    (by intro m hm; simp at hm; subst hm; refine ⟨?_, ?_, ?_, ?_⟩ <;> norm_num)
    (by intro m hm; simp at hm; subst hm; refine ⟨?_, ?_, ?_, ?_⟩ <;> norm_num)
    (by decide) (by decide) (Or.inl rfl)

/-- C2 counterexample: inserting the real-time byte 0xF8 *inside* a channel
message (between the NoteOn status byte and its data bytes) makes the
parser consume 0xF8 as a data byte: no Clock event is emitted and the
NoteOn payload is corrupted, contrary to the claim. -/
theorem c2_counterexample :
    parse [0x90, 0xF8, 0x3C, 0x64] =
      [{ type := MM_NOTE_ON, data0 := 0xF8, data1 := 0x3C }] ∧
    parse [0x90, 0x3C, 0x64] = [{ type := MM_NOTE_ON, data0 := 0x3C, data1 := 0x64 }] ∧
    (parse [0x90, 0xF8, 0x3C, 0x64]).filter (fun m => decide (m.type = MM_CLOCK)) = [] ∧
    (parse [0x90, 0xF8, 0x3C, 0x64]).filter (fun m => decide (m.type ≠ MM_CLOCK)) ≠
      parse [0x90, 0x3C, 0x64] := by
  have h1 : parse [0x90, 0xF8, 0x3C, 0x64] =
      [{ type := MM_NOTE_ON, data0 := 0xF8, data1 := 0x3C }] := by
    simp [parse, parse_step, MM_NOTE_ON, MM_NOTE_OFF, MM_POLY_PRESSURE, MM_CONTROL_CHANGE,
          MM_PITCH_BEND, mm_and_fifteen, Nat.shiftRight_eq_div_pow]
  have h2 : parse [0x90, 0x3C, 0x64] =
      [{ type := MM_NOTE_ON, data0 := 0x3C, data1 := 0x64 }] := by
    simp [parse, parse_step, MM_NOTE_ON, MM_NOTE_OFF, MM_POLY_PRESSURE, MM_CONTROL_CHANGE,
          MM_PITCH_BEND, mm_and_fifteen, Nat.shiftRight_eq_div_pow]
  refine ⟨h1, h2, ?_, ?_⟩
  · rw [h1]; simp [MM_NOTE_ON, MM_CLOCK]
  · rw [h1, h2]; simp [MM_NOTE_ON, MM_CLOCK]

/-- C7 (amended): an undefined status byte (0xF4/0xF5/0xF9/0xFD) appearing
in *status position* — at a message boundary of a stream of serialized
valid messages — is skipped silently: removing it does not change the
messages emitted. -/
theorem c7_undef_status_boundary (ms1 ms2 : List mm_message) (S1 S2 : List Nat) (u : Nat)
    (hv1 : ∀ m ∈ ms1, validMsg m) (hv2 : ∀ m ∈ ms2, validMsg m)
    (h1 : encodeMsgs ms1 = some S1) (h2 : encodeMsgs ms2 = some S2)
    (hu : mm_undef_status u) :
    parse (S1 ++ u :: S2) = parse (S1 ++ S2) ∧
    parse (S1 ++ u :: S2) = ms1.map reparsed ++ ms2.map reparsed := by
  have hS2 : parse S2 = ms2.map reparsed := parse_encodeAll ms2 S2 hv2 h2
  have ha : parse (S1 ++ u :: S2) = ms1.map reparsed ++ ms2.map reparsed := by
    rw [parse_encodeAll_append ms1 S1 (u :: S2) hv1 h1, parse_cons,
        parse_step_undef u S2 hu, hS2]
    rfl
  have hb : parse (S1 ++ S2) = ms1.map reparsed ++ ms2.map reparsed := by
    rw [parse_encodeAll_append ms1 S1 S2 hv1 h1, hS2]
  exact ⟨ha.trans hb.symm, ha⟩

/-- Witness for C7 (amended): 0xF4 inserted between two serialized
messages is invisible in the output. -/
theorem c7_undef_status_boundary_witness :
    parse ([0x90, 0x3C, 0x64] ++ 0xF4 :: [0xFA]) = parse ([0x90, 0x3C, 0x64] ++ [0xFA]) ∧
    parse ([0x90, 0x3C, 0x64] ++ 0xF4 :: [0xFA]) =
      [{ type := MM_NOTE_ON, data0 := 0x3C, data1 := 0x64 }].map reparsed ++
        [{ type := MM_START }].map reparsed :=
  c7_undef_status_boundary
    [{ type := MM_NOTE_ON, data0 := 0x3C, data1 := 0x64 }] [{ type := MM_START }]
    [0x90, 0x3C, 0x64] [0xFA] 0xF4
    (by intro m hm; simp at hm; subst hm; refine ⟨?_, ?_, ?_, ?_⟩ <;> norm_num)
    (by intro m hm; simp at hm; subst hm; refine ⟨?_, ?_, ?_, ?_⟩ <;> norm_num)
    (by decide) (by decide) (Or.inl rfl)

/-- C7 counterexample: 0xF4 in a *data-byte* position is not skipped — the
channel-message branch consumes it as data, so removing it changes the
emitted messages, contrary to the claim. -/
theorem c7_counterexample :
    parse [0x90, 0xF4, 0x3C, 0x64] =
      [{ type := MM_NOTE_ON, data0 := 0xF4, data1 := 0x3C }] ∧
    parse [0x90, 0xF4, 0x3C, 0x64] ≠ parse [0x90, 0x3C, 0x64] := by
  have h1 : parse [0x90, 0xF4, 0x3C, 0x64] =
      [{ type := MM_NOTE_ON, data0 := 0xF4, data1 := 0x3C }] := by
    simp [parse, parse_step, MM_NOTE_ON, MM_NOTE_OFF, MM_POLY_PRESSURE, MM_CONTROL_CHANGE,
          MM_PITCH_BEND, mm_and_fifteen, Nat.shiftRight_eq_div_pow]
  have h2 : parse [0x90, 0x3C, 0x64] =
      [{ type := MM_NOTE_ON, data0 := 0x3C, data1 := 0x64 }] := by
    simp [parse, parse_step, MM_NOTE_ON, MM_NOTE_OFF, MM_POLY_PRESSURE, MM_CONTROL_CHANGE,
          MM_PITCH_BEND, mm_and_fifteen, Nat.shiftRight_eq_div_pow]
  refine ⟨h1, ?_⟩
  rw [h1, h2]
  simp

/- ── MTC quarter-frame reassembly (`mm_mtc_state`, `mm_mtc_push`,
     `mm_mtc_to_seconds`) ── -/

/-- `struct mm_mtc_frame`; `rate` is the `mm_mtc_rate` enum value
(0 = 24fps, 1 = 25fps, 2 = 29.97 drop, 3 = 30fps). -/
structure mm_mtc_frame where
  hours   : Nat
  minutes : Nat
  seconds : Nat
  frames  : Nat
  rate    : Nat
deriving DecidableEq, Repr

/-- `struct mm_mtc_state`: eight nibble slots and a push counter
(a `uint8_t` in the source). -/
structure mm_mtc_state where
  pieces : List Nat
  count  : Nat
deriving DecidableEq, Repr

/-- A zero-initialised `mm_mtc_state` (`memset(s, 0, ...)`). -/
def mm_mtc_state_zero : mm_mtc_state := ⟨List.replicate 8 0, 0⟩

/-- `mm_mtc_push`: store the low nibble in the slot bits 4-6 select,
bump the counter on *every* push, and on the eighth push decode the frame
and reset the counter. -/
def mm_mtc_push (s : mm_mtc_state) (qf : Nat) : mm_mtc_state × Option mm_mtc_frame :=
  let nibble := qf &&& 0x0F
  let piece := (qf >>> 4) &&& 0x07
  let pieces := s.pieces.set piece nibble
  let count := (s.count + 1) % 256
  if count < 8 then (⟨pieces, count⟩, none)
  else
    (⟨pieces, 0⟩,
     some { frames := pieces.getD 0 0 ||| (pieces.getD 1 0 <<< 4),
            seconds := pieces.getD 2 0 ||| (pieces.getD 3 0 <<< 4),
            minutes := pieces.getD 4 0 ||| (pieces.getD 5 0 <<< 4),
            hours := pieces.getD 6 0 ||| ((pieces.getD 7 0 &&& 0x01) <<< 4),
            rate := (pieces.getD 7 0 >>> 1) &&& 0x03 })

/-- The frame-rate table `{24.0, 25.0, 29.97, 30.0}` of
`mm_mtc_to_seconds`, over `ℚ` (the C `double` values are exact here). -/
def mm_mtc_rates : List ℚ := [24, 25, 29.97, 30]

/-- `rates[f->rate & 3]`. -/
def rate_fps (r : Nat) : ℚ := mm_mtc_rates.getD (r &&& 3) 0

/-- `mm_mtc_to_seconds`: seconds from midnight. -/
def mm_mtc_to_seconds (f : mm_mtc_frame) : ℚ :=
  (f.hours : ℚ) * 3600 + (f.minutes : ℚ) * 60 + (f.seconds : ℚ) +
    (f.frames : ℚ) / rate_fps f.rate

/-- The eight quarter-frame bytes encoding a frame, following the piece
layout documented at `mm_mtc_push` (piece index in the high nibble, field
nibble in the low nibble; piece 7 carries hours bit 4 and the rate). -/
def mtc_quarter_frames (f : mm_mtc_frame) : List Nat :=
  [0x00 ||| (f.frames &&& 0x0F),
   0x10 ||| ((f.frames >>> 4) &&& 0x01),
   0x20 ||| (f.seconds &&& 0x0F),
   0x30 ||| ((f.seconds >>> 4) &&& 0x0F),
   0x40 ||| (f.minutes &&& 0x0F),
   0x50 ||| ((f.minutes >>> 4) &&& 0x0F),
   0x60 ||| (f.hours &&& 0x0F),
   0x70 ||| (((f.hours >>> 4) &&& 0x01) ||| (f.rate <<< 1))]

/-- Push a byte sequence through `mm_mtc_push`, collecting every return
value in order. -/
def mm_mtc_run (s : mm_mtc_state) : List Nat → mm_mtc_state × List (Option mm_mtc_frame)
  | [] => (s, [])
  | qf :: qs =>
    let p := mm_mtc_push s qf
    let rest := mm_mtc_run p.1 qs
    (rest.1, p.2 :: rest.2)

theorem mtc_byte_eq (i q : Nat) (hq : q < 16) : (16 * i) ||| q = 16 * i + q := by
  have h := mm_or_mul_pow 4 q i hq
  rw [Nat.lor_comm]
  norm_num at h
  rw [Nat.mul_comm 16 i]
  omega

theorem mm_mtc_push_eq (st : mm_mtc_state) (i q : Nat) (hi : i ≤ 7) (hq : q < 16) :
    mm_mtc_push st (16 * i + q) =
      (let pieces := st.pieces.set i q
       let count := (st.count + 1) % 256
       if count < 8 then (⟨pieces, count⟩, none)
       else
         (⟨pieces, 0⟩,
          some { frames := pieces.getD 0 0 ||| (pieces.getD 1 0 <<< 4),
                 seconds := pieces.getD 2 0 ||| (pieces.getD 3 0 <<< 4),
                 minutes := pieces.getD 4 0 ||| (pieces.getD 5 0 <<< 4),
                 hours := pieces.getD 6 0 ||| ((pieces.getD 7 0 &&& 0x01) <<< 4),
                 rate := (pieces.getD 7 0 >>> 1) &&& 0x03 })) := by
  have h1 : (16 * i + q) &&& 15 = q := by rw [mm_and_fifteen]; omega
  have h2 : ((16 * i + q) >>> 4) &&& 7 = i := by
    rw [mm_and_seven, Nat.shiftRight_eq_div_pow]; norm_num; omega
  unfold mm_mtc_push
  rw [h1, h2]

theorem mm_mtc_run_nil (s : mm_mtc_state) : mm_mtc_run s [] = (s, []) := rfl

theorem mm_mtc_run_cons (s : mm_mtc_state) (qf : Nat) (qs : List Nat) :
    mm_mtc_run s (qf :: qs) =
      ((mm_mtc_run (mm_mtc_push s qf).1 qs).1,
       (mm_mtc_push s qf).2 :: (mm_mtc_run (mm_mtc_push s qf).1 qs).2) := rfl

theorem mm_mtc_run_8 (p0 p1 p2 p3 p4 p5 p6 p7 : Nat)
    (h0 : p0 < 16) (h1 : p1 < 16) (h2 : p2 < 16) (h3 : p3 < 16)
    (h4 : p4 < 16) (h5 : p5 < 16) (h6 : p6 < 16) (h7 : p7 < 16) :
    mm_mtc_run mm_mtc_state_zero
      [0x00 ||| p0, 0x10 ||| p1, 0x20 ||| p2, 0x30 ||| p3,
       0x40 ||| p4, 0x50 ||| p5, 0x60 ||| p6, 0x70 ||| p7] =
      (⟨[p0, p1, p2, p3, p4, p5, p6, p7], 0⟩,
       [none, none, none, none, none, none, none,
        some { frames := p0 ||| (p1 <<< 4), seconds := p2 ||| (p3 <<< 4),
               minutes := p4 ||| (p5 <<< 4), hours := p6 ||| ((p7 &&& 0x01) <<< 4),
               rate := (p7 >>> 1) &&& 0x03 }]) := by
  have b0 : (0x00 : Nat) ||| p0 = 16 * 0 + p0 := by simp
  have b1 : (0x10 : Nat) ||| p1 = 16 * 1 + p1 := by simpa using mtc_byte_eq 1 p1 h1
  have b2 : (0x20 : Nat) ||| p2 = 16 * 2 + p2 := by simpa using mtc_byte_eq 2 p2 h2
  have b3 : (0x30 : Nat) ||| p3 = 16 * 3 + p3 := by simpa using mtc_byte_eq 3 p3 h3
  have b4 : (0x40 : Nat) ||| p4 = 16 * 4 + p4 := by simpa using mtc_byte_eq 4 p4 h4
  have b5 : (0x50 : Nat) ||| p5 = 16 * 5 + p5 := by simpa using mtc_byte_eq 5 p5 h5
  have b6 : (0x60 : Nat) ||| p6 = 16 * 6 + p6 := by simpa using mtc_byte_eq 6 p6 h6
  have b7 : (0x70 : Nat) ||| p7 = 16 * 7 + p7 := by simpa using mtc_byte_eq 7 p7 h7
  have s1 : mm_mtc_push mm_mtc_state_zero (16 * 0 + p0) =
      (⟨[p0, 0, 0, 0, 0, 0, 0, 0], 1⟩, none) := by
    rw [mm_mtc_push_eq _ 0 p0 (by norm_num) h0]; rfl
  have s2 : mm_mtc_push ⟨[p0, 0, 0, 0, 0, 0, 0, 0], 1⟩ (16 * 1 + p1) =
      (⟨[p0, p1, 0, 0, 0, 0, 0, 0], 2⟩, none) := by
    rw [mm_mtc_push_eq _ 1 p1 (by norm_num) h1]; rfl
  have s3 : mm_mtc_push ⟨[p0, p1, 0, 0, 0, 0, 0, 0], 2⟩ (16 * 2 + p2) =
      (⟨[p0, p1, p2, 0, 0, 0, 0, 0], 3⟩, none) := by
    rw [mm_mtc_push_eq _ 2 p2 (by norm_num) h2]; rfl
  have s4 : mm_mtc_push ⟨[p0, p1, p2, 0, 0, 0, 0, 0], 3⟩ (16 * 3 + p3) =
      (⟨[p0, p1, p2, p3, 0, 0, 0, 0], 4⟩, none) := by
    rw [mm_mtc_push_eq _ 3 p3 (by norm_num) h3]; rfl
  have s5 : mm_mtc_push ⟨[p0, p1, p2, p3, 0, 0, 0, 0], 4⟩ (16 * 4 + p4) =
      (⟨[p0, p1, p2, p3, p4, 0, 0, 0], 5⟩, none) := by
    rw [mm_mtc_push_eq _ 4 p4 (by norm_num) h4]; rfl
  have s6 : mm_mtc_push ⟨[p0, p1, p2, p3, p4, 0, 0, 0], 5⟩ (16 * 5 + p5) =
      (⟨[p0, p1, p2, p3, p4, p5, 0, 0], 6⟩, none) := by
    rw [mm_mtc_push_eq _ 5 p5 (by norm_num) h5]; rfl
  have s7 : mm_mtc_push ⟨[p0, p1, p2, p3, p4, p5, 0, 0], 6⟩ (16 * 6 + p6) =
      (⟨[p0, p1, p2, p3, p4, p5, p6, 0], 7⟩, none) := by
    rw [mm_mtc_push_eq _ 6 p6 (by norm_num) h6]; rfl
  have s8 : mm_mtc_push ⟨[p0, p1, p2, p3, p4, p5, p6, 0], 7⟩ (16 * 7 + p7) =
      (⟨[p0, p1, p2, p3, p4, p5, p6, p7], 0⟩,
       some { frames := p0 ||| (p1 <<< 4), seconds := p2 ||| (p3 <<< 4),
              minutes := p4 ||| (p5 <<< 4), hours := p6 ||| ((p7 &&& 0x01) <<< 4),
              rate := (p7 >>> 1) &&& 0x03 }) := by
    rw [mm_mtc_push_eq _ 7 p7 (by norm_num) h7]; rfl
  rw [b0, b1, b2, b3, b4, b5, b6, b7,
      mm_mtc_run_cons, s1]
  dsimp only
  rw [mm_mtc_run_cons, s2]
  dsimp only
  rw [mm_mtc_run_cons, s3]
  dsimp only
  rw [mm_mtc_run_cons, s4]
  dsimp only
  rw [mm_mtc_run_cons, s5]
  dsimp only
  rw [mm_mtc_run_cons, s6]
  dsimp only
  rw [mm_mtc_run_cons, s7]
  dsimp only
  rw [mm_mtc_run_cons, s8]
  rfl

theorem mtc_lownib_hibit (x : Nat) (hx : x < 32) :
    (x &&& 0x0F) ||| (((x >>> 4) &&& 0x01) <<< 4) = x := by
  rw [mm_and_fifteen, Nat.shiftRight_eq_div_pow, mm_and_one, Nat.shiftLeft_eq,
      mm_or_mul_pow 4 _ _ (by omega)]
  norm_num
  omega

theorem mtc_two_nibbles (x : Nat) (hx : x < 256) :
    (x &&& 0x0F) ||| (((x >>> 4) &&& 0x0F) <<< 4) = x := by
  rw [mm_and_fifteen, Nat.shiftRight_eq_div_pow, mm_and_fifteen, Nat.shiftLeft_eq,
      mm_or_mul_pow 4 _ _ (by omega)]
  norm_num
  omega

theorem mtc_hours_rate (H R : Nat) (hH : H < 32) (hR : R < 4) :
    (((H >>> 4) &&& 0x01) ||| (R <<< 1)) &&& 0x01 = (H >>> 4) &&& 0x01 ∧
    ((((H >>> 4) &&& 0x01) ||| (R <<< 1)) >>> 1) &&& 0x03 = R ∧
    (((H >>> 4) &&& 0x01) ||| (R <<< 1)) < 16 := by
  have ha : (H >>> 4) &&& 1 < 2 := by rw [mm_and_one]; omega
  have hp : ((H >>> 4) &&& 1) ||| (R <<< 1) = R * 2 + ((H >>> 4) &&& 1) := by
    rw [Nat.shiftLeft_eq]
    have h := mm_or_mul_pow 1 ((H >>> 4) &&& 1) R ha
    norm_num at h ⊢
    exact h
  refine ⟨?_, ?_, ?_⟩
  · rw [hp, mm_and_one, mm_and_one]
    omega
  · rw [hp, mm_and_three, Nat.shiftRight_eq_div_pow, mm_and_one]
    norm_num
    omega
  · rw [hp, mm_and_one]
    omega

/-- C4: MTC reassembly.  For every frame with in-range fields
(`frames < rate_fps(rate)`), pushing its eight quarter-frame bytes in order
into a zero-initialised `mm_mtc_state` returns 0 on the first seven pushes,
returns 1 with exactly the original frame on the eighth, and leaves the
state with count 0 (empty) after the eighth push. -/
theorem c4_mtc_reassembly (f : mm_mtc_frame)
    (hh : f.hours < 24) (hm : f.minutes < 60) (hs : f.seconds < 60)
    (hr : f.rate < 4) (hf : (f.frames : ℚ) < rate_fps f.rate) :
    (mm_mtc_run mm_mtc_state_zero (mtc_quarter_frames f)).2 =
      [none, none, none, none, none, none, none, some f] ∧
    (mm_mtc_run mm_mtc_state_zero (mtc_quarter_frames f)).1.count = 0 := by
  obtain ⟨H, M, S, F, R⟩ := f
  simp only at hh hm hs hr hf
  have hF : F < 30 := by
    interval_cases R <;> simp [rate_fps, mm_mtc_rates, mm_and_three] at hf
    · omega
    · omega
    · by_contra hge
      push_neg at hge
      have h2 : (30 : ℚ) ≤ (F : ℚ) := by exact_mod_cast hge
      linarith
    · omega
  have hx := mtc_hours_rate H R (by omega) hr
  have hrun := mm_mtc_run_8 (F &&& 0x0F) ((F >>> 4) &&& 0x01) (S &&& 0x0F) ((S >>> 4) &&& 0x0F)
      (M &&& 0x0F) ((M >>> 4) &&& 0x0F) (H &&& 0x0F) (((H >>> 4) &&& 0x01) ||| (R <<< 1))
      (by rw [mm_and_fifteen]; omega) (by rw [mm_and_one]; omega)
      (by rw [mm_and_fifteen]; omega) (by rw [mm_and_fifteen]; omega)
      (by rw [mm_and_fifteen]; omega) (by rw [mm_and_fifteen]; omega)
      (by rw [mm_and_fifteen]; omega) hx.2.2
  have e_frames : (F &&& 0x0F) ||| (((F >>> 4) &&& 0x01) <<< 4) = F :=
    mtc_lownib_hibit F (by omega)
  have e_seconds : (S &&& 0x0F) ||| (((S >>> 4) &&& 0x0F) <<< 4) = S :=
    mtc_two_nibbles S (by omega)
  have e_minutes : (M &&& 0x0F) ||| (((M >>> 4) &&& 0x0F) <<< 4) = M :=
    mtc_two_nibbles M (by omega)
  have e_hours : (H &&& 0x0F) |||
      (((((H >>> 4) &&& 0x01) ||| (R <<< 1)) &&& 0x01) <<< 4) = H := by
    rw [hx.1]
    exact mtc_lownib_hibit H (by omega)
  unfold mtc_quarter_frames
  simp only
  rw [hrun]
  rw [e_frames, e_seconds, e_minutes, e_hours, hx.2.1]
  exact ⟨rfl, rfl⟩

/-- Witness for C4 at the frame 01:02:03.04 at 30 fps. -/
theorem c4_mtc_reassembly_witness :
    (mm_mtc_run mm_mtc_state_zero (mtc_quarter_frames ⟨1, 2, 3, 4, 3⟩)).2 =
      [none, none, none, none, none, none, none, some ⟨1, 2, 3, 4, 3⟩] ∧
    (mm_mtc_run mm_mtc_state_zero (mtc_quarter_frames ⟨1, 2, 3, 4, 3⟩)).1.count = 0 :=
  c4_mtc_reassembly ⟨1, 2, 3, 4, 3⟩ (by norm_num) (by norm_num) (by norm_num) (by norm_num)
    (by norm_num [rate_fps, mm_mtc_rates, mm_and_three])

/-- C5 counterexample: pushing the eight bytes
`{0x00,0x10,0x00,0x20,0x00,0x30,0x00,0x70}` (three of which re-address
slot 0, and whose piece-7 byte carries rate bits 0) leaves slots 2–6 at
their zero-initialised values, so the eighth push emits the all-zero frame
at 24 fps — not the frame {frames=1, seconds=2, minutes=3, hours=0,
rate=30fps} the claim states. -/
theorem c5_counterexample :
    (mm_mtc_run mm_mtc_state_zero [0x00, 0x10, 0x00, 0x20, 0x00, 0x30, 0x00, 0x70]).2 =
      [none, none, none, none, none, none, none,
       some { hours := 0, minutes := 0, seconds := 0, frames := 0, rate := 0 }] ∧
    ¬ (mm_mtc_run mm_mtc_state_zero [0x00, 0x10, 0x00, 0x20, 0x00, 0x30, 0x00, 0x70]).2 =
      [none, none, none, none, none, none, none,
       some { hours := 0, minutes := 3, seconds := 2, frames := 1, rate := 3 }] ∧
    mm_mtc_to_seconds { hours := 0, minutes := 0, seconds := 0, frames := 0, rate := 0 } = 0 := by
  refine ⟨by decide, by decide,
    by norm_num [mm_mtc_to_seconds, rate_fps, mm_mtc_rates, mm_and_three]⟩

/-- C5 (amended): the byte sequence the spec lists decodes to the all-zero
frame at 24 fps with `to_seconds` 0; the frame {frames=1, seconds=2,
minutes=3, hours=0, rate=30fps} is instead produced by pushing
`{0x01,0x10,0x22,0x30,0x43,0x50,0x60,0x76}`, and its `to_seconds` is
182 + 1/30 (3 minutes + 2 seconds + 1/30). -/
theorem c5_mtc_scenario :
    (mm_mtc_run mm_mtc_state_zero [0x00, 0x10, 0x00, 0x20, 0x00, 0x30, 0x00, 0x70]).2 =
      [none, none, none, none, none, none, none,
       some { hours := 0, minutes := 0, seconds := 0, frames := 0, rate := 0 }] ∧
    mm_mtc_to_seconds { hours := 0, minutes := 0, seconds := 0, frames := 0, rate := 0 } = 0 ∧
    (mm_mtc_run mm_mtc_state_zero [0x01, 0x10, 0x22, 0x30, 0x43, 0x50, 0x60, 0x76]).2 =
      [none, none, none, none, none, none, none,
       some { hours := 0, minutes := 3, seconds := 2, frames := 1, rate := 3 }] ∧
    mm_mtc_to_seconds { hours := 0, minutes := 3, seconds := 2, frames := 1, rate := 3 } =
      182 + 1 / 30 := by
  refine ⟨by decide, by norm_num [mm_mtc_to_seconds, rate_fps, mm_mtc_rates, mm_and_three],
    by decide, by norm_num [mm_mtc_to_seconds, rate_fps, mm_mtc_rates, mm_and_three]⟩

/- ── ALSA input event translation (`mm__alsa_recv_thread`) ── -/

/-- The note payload of an ALSA sequencer event (`ev->data.note`). -/
structure snd_seq_ev_note where
  channel  : Nat
  note     : Nat
  velocity : Nat
deriving DecidableEq, Repr

/-- The message `mm__alsa_recv_thread` delivers for a
`SND_SEQ_EVENT_NOTEON` event:
`msg.type = (ev->data.note.velocity > 0) ? MM_NOTE_ON : MM_NOTE_OFF`. -/
def mm__alsa_noteon_msg (e : snd_seq_ev_note) : mm_message :=
  { type := if e.velocity > 0 then MM_NOTE_ON else MM_NOTE_OFF,
    channel := e.channel, data0 := e.note, data1 := e.velocity }

/-- C3 counterexample: an ALSA NoteOn event with velocity 0 is delivered
to the callback as `MM_NOTE_OFF`, not `MM_NOTE_ON` — the ALSA backend does
not preserve the wire kind. -/
theorem c3_counterexample :
    (mm__alsa_noteon_msg ⟨0, 60, 0⟩).type = MM_NOTE_OFF ∧ MM_NOTE_OFF ≠ MM_NOTE_ON := by
  refine ⟨by decide, by decide⟩

/-- C3 (amended): the CoreMIDI byte parser and the WinMM channel-message
packer (`mm_make_message`) preserve the wire kind — a NoteOn status byte
with velocity 0 is delivered as `MM_NOTE_ON` — but the ALSA backend
delivers a NoteOn event with velocity 0 as `MM_NOTE_OFF`. -/
theorem c3_noteon_velocity_zero (ch n : Nat) (hch : ch < 16) (_hn : n ≤ 0x7F)
    (e : snd_seq_ev_note) (hv0 : e.velocity = 0) :
    parse [16 * MM_NOTE_ON + ch, n, 0] =
      [{ type := MM_NOTE_ON, channel := ch, data0 := n, data1 := 0 }] ∧
    (mm_make_message (16 * MM_NOTE_ON + ch) n 0).type = MM_NOTE_ON ∧
    (mm__alsa_noteon_msg e).type = MM_NOTE_OFF := by
  refine ⟨?_, ?_, ?_⟩
  · rw [parse_cons,
        parse_step_channel MM_NOTE_ON ch n 0 []
          (by norm_num [MM_NOTE_ON]) (by norm_num [MM_NOTE_ON]) hch,
        if_pos (Or.inr (Or.inl rfl))]
    rw [parse_nil]
    rfl
  · unfold mm_make_message
    simp only [mm_and_fifteen, Nat.shiftRight_eq_div_pow, MM_NOTE_ON]
    norm_num
    omega
  · simp [mm__alsa_noteon_msg, hv0]

/-- Witness for C3 (amended) at channel 0, note 60. -/
theorem c3_noteon_velocity_zero_witness :
    parse [16 * MM_NOTE_ON + 0, 60, 0] =
      [{ type := MM_NOTE_ON, channel := 0, data0 := 60, data1 := 0 }] ∧
    (mm_make_message (16 * MM_NOTE_ON + 0) 60 0).type = MM_NOTE_ON ∧
    (mm__alsa_noteon_msg ⟨0, 60, 0⟩).type = MM_NOTE_OFF :=
  c3_noteon_velocity_zero 0 60 (by norm_num) (by norm_num) ⟨0, 60, 0⟩ rfl

/- ── Result strings (`mm_result_string`) ── -/

/-- `mm__result_strings`. -/
def mm__result_strings : List String :=
  ["MM_SUCCESS", "MM_ERROR", "MM_INVALID_ARG", "MM_NO_BACKEND",
   "MM_OUT_OF_RANGE", "MM_ALREADY_OPEN", "MM_NOT_OPEN", "MM_ALLOC_FAILED"]

/-- `mm_result_string`: `int i = -(int)r;` with a bounds check against the
table size, `"MM_UNKNOWN"` otherwise. -/
def mm_result_string (r : Int) : String :=
  let i : Int := -r
  if i < 0 ∨ i ≥ (mm__result_strings.length : Int) then "MM_UNKNOWN"
  else mm__result_strings.getD i.toNat "MM_UNKNOWN"

/-- C9: `mm_result_string` is total: each of the eight defined codes maps
to its name, and every other integer maps to "MM_UNKNOWN" — the index is
range-checked, never out of bounds. -/
theorem c9_result_string_total :
    mm_result_string 0 = "MM_SUCCESS" ∧ mm_result_string (-1) = "MM_ERROR" ∧
    mm_result_string (-2) = "MM_INVALID_ARG" ∧ mm_result_string (-3) = "MM_NO_BACKEND" ∧
    mm_result_string (-4) = "MM_OUT_OF_RANGE" ∧ mm_result_string (-5) = "MM_ALREADY_OPEN" ∧
    mm_result_string (-6) = "MM_NOT_OPEN" ∧ mm_result_string (-7) = "MM_ALLOC_FAILED" ∧
    ∀ r : Int, (0 < r ∨ r < -7) → mm_result_string r = "MM_UNKNOWN" := by
  refine ⟨rfl, rfl, rfl, rfl, rfl, rfl, rfl, rfl, ?_⟩
  intro r hr
  unfold mm_result_string
  rw [if_pos]
  simp only [mm__result_strings, List.length_cons, List.length_nil]
  omega

/-- Witness for C9's catch-all clause at r = 5. -/
theorem c9_result_string_total_witness : mm_result_string 5 = "MM_UNKNOWN" :=
  c9_result_string_total.2.2.2.2.2.2.2.2 5 (Or.inl (by norm_num))

/- ── Device open/start/send guard logic (ALSA backend; the CoreMIDI and
     WinMM guards are byte-for-byte the same checks) ── -/

/-- The open/direction/running state of `struct mm_device`
(`is_input`, `is_open`, `is_virtual`, and the ALSA `al.running` flag). -/
structure mm_device where
  is_input   : Bool
  is_open    : Bool
  is_virtual : Bool
  running    : Bool
deriving DecidableEq, Repr

/-- `enum mm_result`. -/
inductive mm_result where
  | success | error | invalidArg | noBackend | outOfRange | alreadyOpen | notOpen | allocFailed
deriving DecidableEq, Repr

/-- `mm_in_open` (ALSA): argument checks
(`!ctx||!ctx->initialized||!dev||!cb`, modelled by `ctx_ok`), the
enumeration-index check (`idx_ok`), then `memset(dev,0,...)` and
unconditional (re)initialisation — the previous contents of `*dev` are
never examined.  `pipe_ok`/`port_ok` model the `pipe()` and
`snd_seq_create_simple_port` calls. -/
def mm_in_open (ctx_ok idx_ok pipe_ok port_ok : Bool) (dev : mm_device) :
    mm_result × mm_device :=
  if ¬ctx_ok then (.invalidArg, dev)
  else if ¬idx_ok then (.outOfRange, dev)
  else
    let dev0 : mm_device := ⟨true, false, false, false⟩
    if ¬pipe_ok then (.error, dev0)
    else if ¬port_ok then (.error, dev0)
    else (.success, { dev0 with is_open := true })

/-- `mm_in_start` (ALSA): guard
`!dev||!dev->is_open||!dev->is_input → MM_NOT_OPEN`, then connect (result
unused), set `running = 1`, spawn the thread, return success — it never
checks whether the device is already running. -/
def mm_in_start (dev : mm_device) : mm_result × mm_device :=
  if ¬dev.is_open ∨ ¬dev.is_input then (.notOpen, dev)
  else (.success, { dev with running := true })

/-- The guard and serialization of `mm_out_send`:
`!dev||!dev->is_open||dev->is_input → MM_NOT_OPEN`, unserializable type →
`MM_INVALID_ARG`; the OS send is modelled as succeeding. -/
def mm_out_send_res (dev : mm_device) (msg : mm_message) : mm_result :=
  if ¬dev.is_open ∨ dev.is_input then .notOpen
  else
    match mm_out_send_bytes msg with
    | none => .invalidArg
    | some _ => .success

/-- `mm_out_send_sysex` (the guards are identical on all three backends):
`!dev||!dev->is_open||dev->is_input → MM_NOT_OPEN`, then
`!data||!size||size>MM_SYSEX_BUF_SIZE → MM_INVALID_ARG`; the OS transfer
is modelled as succeeding. -/
def mm_out_send_sysex_res (dev : mm_device) (data_null : Bool) (size : Nat) : mm_result :=
  if ¬dev.is_open ∨ dev.is_input then .notOpen
  else if data_null ∨ size = 0 ∨ size > MM_SYSEX_BUF_SIZE then .invalidArg
  else .success

/-- C6 counterexample: opening an already-open input succeeds (the device
is re-initialised) and starting an already-running input succeeds —
neither fails with `MM_ALREADY_OPEN`. -/
theorem c6_counterexample :
    (mm_in_open true true true true ⟨true, true, false, false⟩).1 = .success ∧
    (mm_in_open true true true true ⟨true, true, false, false⟩).1 ≠ .alreadyOpen ∧
    (mm_in_start ⟨true, true, false, true⟩).1 = .success ∧
    (mm_in_start ⟨true, true, false, true⟩).1 ≠ .alreadyOpen := by
  refine ⟨by decide, by decide, by decide, by decide⟩

/-- C6 (amended): operations on the wrong direction fail with
`MM_NOT_OPEN` leaving the device unchanged; but a double open is not
detected — `mm_in_open` on an already-open device re-initialises it and
returns success — and a double start returns success; `MM_ALREADY_OPEN` is
never produced by these operations. -/
theorem c6_state_guards (dev : mm_device) (msg : mm_message) :
    (dev.is_open = false ∨ dev.is_input = false → mm_in_start dev = (.notOpen, dev)) ∧
    (dev.is_open = false ∨ dev.is_input = true → mm_out_send_res dev msg = .notOpen) ∧
    (dev.is_open = true →
      mm_in_open true true true true dev = (.success, ⟨true, true, false, false⟩)) ∧
    (dev.is_open = true → dev.is_input = true →
      mm_in_start dev = (.success, { dev with running := true })) := by
  obtain ⟨i, o, v, r⟩ := dev
  refine ⟨?_, ?_, ?_, ?_⟩
  · intro h
    rcases h with h | h <;> simp only at h <;> subst h <;> simp [mm_in_start]
  · intro h
    rcases h with h | h <;> simp only at h <;> subst h <;> simp [mm_out_send_res]
  · intro h
    simp only at h
    subst h
    simp [mm_in_open]
  · intro h1 h2
    simp only at h1 h2
    subst h1
    subst h2
    simp [mm_in_start]

/-- Witness for C6 (amended): start on an output, send on an input,
re-open of an open device, re-start of a running input. -/
theorem c6_state_guards_witness :
    mm_in_start ⟨false, true, false, false⟩ = (.notOpen, ⟨false, true, false, false⟩) ∧
    mm_out_send_res ⟨true, true, false, false⟩ { type := MM_CLOCK } = .notOpen ∧
    mm_in_open true true true true ⟨true, true, false, false⟩ =
      (.success, ⟨true, true, false, false⟩) ∧
    mm_in_start ⟨true, true, false, true⟩ = (.success, ⟨true, true, false, true⟩) :=
  ⟨(c6_state_guards ⟨false, true, false, false⟩ { type := MM_CLOCK }).1 (Or.inr rfl),
   (c6_state_guards ⟨true, true, false, false⟩ { type := MM_CLOCK }).2.1 (Or.inr rfl),
   (c6_state_guards ⟨true, true, false, false⟩ { type := MM_CLOCK }).2.2.1 rfl,
   (c6_state_guards ⟨true, true, false, true⟩ { type := MM_CLOCK }).2.2.2 rfl rfl⟩

/-- C8 counterexample: a zero-length slice on an open output device is
rejected with `MM_INVALID_ARG` (`!size`), although the claim says
InvalidArg occurs exactly for null slices or oversized slices. -/
theorem c8_counterexample :
    mm_out_send_sysex_res ⟨false, true, false, false⟩ false 0 = .invalidArg ∧
    ¬ (mm_out_send_sysex_res ⟨false, true, false, false⟩ false 0 = .invalidArg ↔
        (false = true ∨ 0 > MM_SYSEX_BUF_SIZE)) := by
  refine ⟨by decide, by decide⟩

/-- C8 (amended): on an open output device, `mm_out_send_sysex` returns
InvalidArg exactly when the slice is null, *zero-length*, or longer than
`MM_SYSEX_BUF_SIZE`; it never reports NotOpen there. -/
theorem c8_sysex_arg_check (dev : mm_device) (data_null : Bool) (size : Nat)
    (ho : dev.is_open = true) (hi : dev.is_input = false) :
    (mm_out_send_sysex_res dev data_null size = .invalidArg ↔
      (data_null = true ∨ size = 0 ∨ size > MM_SYSEX_BUF_SIZE)) ∧
    mm_out_send_sysex_res dev data_null size ≠ .notOpen := by
  obtain ⟨i, o, v, r⟩ := dev
  simp only at ho hi
  subst ho
  subst hi
  unfold mm_out_send_sysex_res
  rw [if_neg (by simp)]
  split_ifs with h
  · exact ⟨⟨fun _ => by simpa using h, fun _ => rfl⟩, by decide⟩
  · exact ⟨⟨fun hc => absurd hc (by decide), fun hc => absurd (by simpa using hc) h⟩, by decide⟩

/-- Witness for C8 (amended) at a non-null slice of 5000 bytes (over the
4096-byte capacity) on an open output device. -/
theorem c8_sysex_arg_check_witness :
    (mm_out_send_sysex_res ⟨false, true, false, false⟩ false 5000 = .invalidArg ↔
      (false = true ∨ 5000 = 0 ∨ 5000 > MM_SYSEX_BUF_SIZE)) ∧
    mm_out_send_sysex_res ⟨false, true, false, false⟩ false 5000 ≠ .notOpen :=
  c8_sysex_arg_check ⟨false, true, false, false⟩ false 5000 rfl rfl

/- ── ALSA port enumeration (`mm__alsa_enum`, `mm_in_count`,
     `mm_out_count`) ── -/

/-- ALSA sequencer port capability bits (asoundlib). -/
def SND_SEQ_PORT_CAP_READ       : Nat := 0x01
def SND_SEQ_PORT_CAP_WRITE      : Nat := 0x02
def SND_SEQ_PORT_CAP_SUBS_READ  : Nat := 0x20
def SND_SEQ_PORT_CAP_SUBS_WRITE : Nat := 0x40

/-- The per-port body of `mm__alsa_enum`'s inner loop:
`int ok = ((cap&cap_req)==cap_req) || (cap_any && (cap&cap_any));
if (!ok || lst->count >= MM_MAX_PORTS) continue;` — otherwise append the
(client, port) pair.  `p` is (port id, capability bits). -/
def mm__alsa_enum_port (cid cap_req cap_any : Nat)
    (acc : List (Nat × Nat)) (p : Nat × Nat) : List (Nat × Nat) :=
  if ¬(((p.2 &&& cap_req) = cap_req) ∨ (cap_any ≠ 0 ∧ (p.2 &&& cap_any) ≠ 0)) ∨
     acc.length ≥ MM_MAX_PORTS then acc
  else acc ++ [(cid, p.1)]

/-- `mm__alsa_enum`: walk every sequencer client — skipping the context's
own client id (`if (cid == al->client_id) continue;`) — and every port of
each client, keeping the ports that pass the capability filter, up to
`MM_MAX_PORTS` entries.  The world is a list of clients, each a client id
with its ports. -/
def mm__alsa_enum (own_client : Nat) (clients : List (Nat × List (Nat × Nat)))
    (cap_req cap_any : Nat) : List (Nat × Nat) :=
  clients.foldl
    (fun acc c =>
      if c.1 = own_client then acc
      else c.2.foldl (mm__alsa_enum_port c.1 cap_req cap_any) acc)
    []

/-- `mm_in_count` on an initialised context: enumerate with
`READ|SUBS_READ` required or `READ` alone accepted, and return the
count. -/
def mm_in_count (own_client : Nat) (clients : List (Nat × List (Nat × Nat))) : Nat :=
  (mm__alsa_enum own_client clients
    (SND_SEQ_PORT_CAP_READ ||| SND_SEQ_PORT_CAP_SUBS_READ) SND_SEQ_PORT_CAP_READ).length

/-- `mm_out_count` on an initialised context: enumerate with
`WRITE|SUBS_WRITE` required, no `cap_any`. -/
def mm_out_count (own_client : Nat) (clients : List (Nat × List (Nat × Nat))) : Nat :=
  (mm__alsa_enum own_client clients
    (SND_SEQ_PORT_CAP_WRITE ||| SND_SEQ_PORT_CAP_SUBS_WRITE) 0).length

theorem mm__alsa_enum_port_inv (cid cap_req cap_any own : Nat) (hcid : cid ≠ own)
    (ports : List (Nat × Nat)) :
    ∀ acc : List (Nat × Nat),
      acc.length ≤ MM_MAX_PORTS → (∀ e ∈ acc, e.1 ≠ own) →
      (ports.foldl (mm__alsa_enum_port cid cap_req cap_any) acc).length ≤ MM_MAX_PORTS ∧
      ∀ e ∈ ports.foldl (mm__alsa_enum_port cid cap_req cap_any) acc, e.1 ≠ own := by
  induction ports with
  | nil => intro acc h1 h2; exact ⟨h1, h2⟩
  | cons p ps ih =>
    intro acc h1 h2
    rw [List.foldl_cons]
    apply ih
    · unfold mm__alsa_enum_port
      split_ifs with h
      · exact h1
      · push_neg at h
        simp only [List.length_append, List.length_cons, List.length_nil]
        omega
    · intro e he
      unfold mm__alsa_enum_port at he
      split_ifs at he with h
      · exact h2 e he
      · rcases List.mem_append.mp he with hm | hm
        · exact h2 e hm
        · simp only [List.mem_singleton] at hm
          subst hm
          exact hcid

theorem mm__alsa_enum_inv (own cap_req cap_any : Nat)
    (clients : List (Nat × List (Nat × Nat))) :
    (mm__alsa_enum own clients cap_req cap_any).length ≤ MM_MAX_PORTS ∧
    ∀ e ∈ mm__alsa_enum own clients cap_req cap_any, e.1 ≠ own := by
  unfold mm__alsa_enum
  suffices h : ∀ acc : List (Nat × Nat),
      acc.length ≤ MM_MAX_PORTS → (∀ e ∈ acc, e.1 ≠ own) →
      (clients.foldl
        (fun acc c =>
          if c.1 = own then acc
          else c.2.foldl (mm__alsa_enum_port c.1 cap_req cap_any) acc) acc).length ≤
          MM_MAX_PORTS ∧
      ∀ e ∈ clients.foldl
        (fun acc c =>
          if c.1 = own then acc
          else c.2.foldl (mm__alsa_enum_port c.1 cap_req cap_any) acc) acc, e.1 ≠ own by
    exact h [] (by simp [MM_MAX_PORTS]) (by simp)
  induction clients with
  | nil => intro acc h1 h2; exact ⟨h1, h2⟩
  | cons c cs ih =>
    intro acc h1 h2
    rw [List.foldl_cons]
    by_cases hc : c.1 = own
    · rw [if_pos hc]
      exact ih acc h1 h2
    · rw [if_neg hc]
      have hinner := mm__alsa_enum_port_inv c.1 cap_req cap_any own hc c.2 acc h1 h2
      exact ih _ hinner.1 hinner.2

/-- C10: ALSA enumeration never lists a port of the context's own
sequencer client and never holds more than `MM_MAX_PORTS` entries, so
`mm_in_count` and `mm_out_count` are at most `MM_MAX_PORTS`. -/
theorem c10_alsa_enum_bounds (own : Nat) (clients : List (Nat × List (Nat × Nat))) :
    mm_in_count own clients ≤ MM_MAX_PORTS ∧
    mm_out_count own clients ≤ MM_MAX_PORTS ∧
    (∀ e ∈ mm__alsa_enum own clients
        (SND_SEQ_PORT_CAP_READ ||| SND_SEQ_PORT_CAP_SUBS_READ) SND_SEQ_PORT_CAP_READ,
      e.1 ≠ own) ∧
    (∀ e ∈ mm__alsa_enum own clients
        (SND_SEQ_PORT_CAP_WRITE ||| SND_SEQ_PORT_CAP_SUBS_WRITE) 0,
      e.1 ≠ own) :=
  ⟨(mm__alsa_enum_inv own _ _ clients).1, (mm__alsa_enum_inv own _ _ clients).1,
   (mm__alsa_enum_inv own _ _ clients).2, (mm__alsa_enum_inv own _ _ clients).2⟩

/-- Witness for C10 on a two-client world where one client is the context
itself: its port is excluded, the foreign port is listed. -/
theorem c10_alsa_enum_bounds_witness :
    mm_in_count 5 [(5, [(0, 0x21)]), (7, [(1, 0x21)])] ≤ MM_MAX_PORTS ∧
    ((7, 1) : Nat × Nat).1 ≠ 5 :=
  ⟨(c10_alsa_enum_bounds 5 [(5, [(0, 0x21)]), (7, [(1, 0x21)])]).1,
   (c10_alsa_enum_bounds 5 [(5, [(0, 0x21)]), (7, [(1, 0x21)])]).2.2.1 (7, 1) (by decide)⟩
